import Mathlib

set_option maxRecDepth 8000

/-!
Shallow embedding of the pixel-grid-to-glyph rendering engine of
`src/app.py` (class `StreamlitASCIIConverter`).

Modelling conventions:
* numpy `uint8` brightness values are `Fin 256`;
* the quantization formula's float expression is replaced by the exact
  integer arithmetic it agrees with (verified exhaustively: for every
  `v` in `[0,255]`, `int(v / 255 * 9) = v * 9 / 255`), with Python
  `int()` as truncation toward zero;
* the height formula `int(tw * (H / W) * 0.5)` does NOT agree with
  exact rational arithmetic, so it is modelled by explicit IEEE-754
  binary64 rounding (`F64` below), validated against CPython on 1899
  inputs including every divergent case found by search;
* the library resampling calls (`cv2.resize` + `cv2.cvtColor`, and PIL
  `Image.resize` + `convert`) are abstracted as a `Resampler`: a pair of
  functions producing, for a frame and target dimensions, the resampled
  8-bit brightness and RGB value at each output cell.  `cv2.resize`
  raises on an empty source or destination; PIL `Image.resize` rejects
  only a non-positive destination size and resamples an empty source to
  black pixels without raising — the two render bodies model this
  difference;
* a Python exception is an `Except.error`; the blanket `try/except` of
  `frame_to_ascii` / `image_to_ascii` is the `match` that turns an error
  into the `f"<pre>Error: {e}</pre>", 0, 0` return value.
-/

/-- An 8-bit RGB triple (one pixel of a decoded frame). -/
structure RGB where
  r : Nat
  g : Nat
  b : Nat
deriving DecidableEq

/-- A decoded raster frame: `frame.shape[:2] = (height, width)` plus the
pixel data. -/
structure Frame where
  height : Nat
  width : Nat
  pixel : Nat → Nat → RGB

/-- Abstraction of the imaging-library resampling step: given a source
frame and target dimensions, `gray f tw th y x` is the resampled 8-bit
brightness at output cell `(y, x)` and `rgbAt f tw th y x` the resampled
RGB value there. -/
structure Resampler where
  gray : Frame → Nat → Nat → Nat → Nat → Fin 256
  rgbAt : Frame → Nat → Nat → Nat → Nat → RGB

/-- `self.chars = "@%#*+=-:. "` (line 47 of `src/app.py`). -/
def chars : List Char := "@%#*+=-:. ".toList

/-- Line 53-54: `scale = len(ramp) - 1;
char_index = min(int(pixel_value / 255 * scale), scale)`.
Python ints are unbounded and `len("") - 1 = -1`, so the index is an
integer; `int()` on the exact value truncates toward zero, which is
`Int.tdiv`. -/
def char_index (ramp : List Char) (pixel_value : Nat) : Int :=
  let scale : Int := (ramp.length : Int) - 1
  min (Int.tdiv ((pixel_value : Int) * scale) 255) scale

/-- Python string indexing `s[i]`: a negative index counts from the end;
an out-of-range index raises `IndexError` (here: `none`). -/
def python_index (s : List Char) (i : Int) : Option Char :=
  let j : Int := if i < 0 then (s.length : Int) + i else i
  if 0 ≤ j ∧ j < (s.length : Int) then s[j.toNat]? else none

/-- Lines 50-55: `precompute_char_mapping` builds `self.char_map`, a dict
with keys `0..255` in order (modelled as the list of values); indexing
`self.chars[char_index]` can raise `IndexError`. -/
def precompute_char_mapping (ramp : List Char) : Except String (List Char) :=
  (List.range 256).foldlM
    (fun char_map pixel_value =>
      match python_index ramp (char_index ramp pixel_value) with
      | some c => Except.ok (char_map ++ [c])
      | none => Except.error "IndexError: string index out of range")
    []

/-- The state of a `StreamlitASCIIConverter` instance: the fields set in
`__init__` and never assigned again. -/
structure Converter where
  chars : List Char
  char_map : List Char
deriving DecidableEq

/-- `__init__` (lines 46-48), generalized over the ramp that the source
hardcodes as `"@%#*+=-:. "`: store the ramp and precompute the table; an
exception inside `precompute_char_mapping` propagates out of
construction. -/
def StreamlitASCIIConverter.mk_with (ramp : List Char) : Except String Converter :=
  match precompute_char_mapping ramp with
  | Except.ok m => Except.ok { chars := ramp, char_map := m }
  | Except.error e => Except.error e

/-- The quantization index for the concrete 10-character ramp, in `Nat`
(here `chars.length - 1 = 9` is nonnegative, so truncation is floor). -/
def char_index_nat (v : Nat) : Nat :=
  min (v * (chars.length - 1) / 255) (chars.length - 1)

theorem chars_length : chars.length = 10 := rfl

theorem char_index_nat_lt (v : Nat) : char_index_nat v < chars.length := by
  have h : char_index_nat v ≤ chars.length - 1 := min_le_right _ _
  rw [chars_length] at h ⊢
  omega

/-- The glyph the table assigns to brightness `v` (for the concrete
ramp). -/
def char_map_char (v : Nat) : Char :=
  chars.get ⟨char_index_nat v, char_index_nat_lt v⟩

/-- The converter instance the app builds (`converter =
StreamlitASCIIConverter()`, line 144): its `char_map` lists the glyph
for each brightness `0..255` in key order. -/
def converter : Converter :=
  { chars := chars, char_map := (List.range 256).map char_map_char }

set_option maxRecDepth 4000 in
theorem mk_with_chars_ok :
    StreamlitASCIIConverter.mk_with chars = Except.ok converter := by rfl

/-- The color markup of lines 86 / 127:
`f"<span style='color: rgb({r},{g},{b})'>{char}</span>"`. -/
def span_html (p : RGB) (c : Char) : String :=
  "<span style=\x27color: rgb(" ++ toString p.r ++ "," ++ toString p.g ++
    "," ++ toString p.b ++ ")\x27>" ++ String.singleton c ++ "</span>"

/-- The inner loop of lines 80-88 / 121-129: build one output line by
appending, for each column `x`, either the color-wrapped glyph or the
bare glyph; the dict lookup `self.char_map[brightness]` raises
`KeyError` on a missing key. -/
def ascii_line (cmap : List Char) (color_mode : Bool)
    (gray : Nat → Nat → Fin 256) (rgbb : Nat → Nat → RGB)
    (tw y : Nat) : Except String String :=
  (List.range tw).foldlM
    (fun line_html x =>
      match cmap[((gray y x : Fin 256) : Nat)]? with
      | some char =>
          Except.ok (line_html ++
            (if color_mode then span_html (rgbb y x) char
             else String.singleton char))
      | none => Except.error "KeyError")
    ""

/-- The outer loop of lines 76-90 / 117-131: starting from
`ascii_html = '<pre class="ascii-art">'`, append each line followed by a
newline. -/
def ascii_rows (cmap : List Char) (color_mode : Bool)
    (gray : Nat → Nat → Fin 256) (rgbb : Nat → Nat → RGB)
    (tw th : Nat) : Except String String :=
  (List.range th).foldlM
    (fun ascii_html y =>
      match ascii_line cmap color_mode gray rgbb tw y with
      | Except.ok line_html => Except.ok (ascii_html ++ line_html ++ "\n")
      | Except.error e => Except.error e)
    "<pre class=\x22ascii-art\x22>"

/-- Line 66 / 107: `target_width = min(width, 120)`. -/
def target_width (width : Nat) : Nat := min width 120

/-- A nonnegative IEEE-754 binary64 value `m * 2 ^ e`.  The exponent is
unbounded in the model: overflow would need an aspect ratio of about
`2 ^ 1024` and subnormal loss only touches ratios below `2 ^ -1022`,
neither reachable from a decodable frame (dimensions fit in a machine
word), and in the subnormal regime the final `int(... * 0.5)` is 0
either way. -/
structure F64 where
  m : Nat
  e : Int
deriving DecidableEq

/-- `floor (logb 2 n)` (0 for `n = 0`), fuel-based so that it reduces
inside the kernel; `n` itself is always enough fuel since the recursion
halves `n` each step. -/
def log2fuel : Nat → Nat → Nat
  | 0, _ => 0
  | f + 1, n => if 2 ≤ n then log2fuel f (n / 2) + 1 else 0

def natLog2 (n : Nat) : Nat := log2fuel n n

/-- `floor (logb 2 (p / q))` for `p, q ≥ 1`: from the bit lengths,
`p / q` lies in `(2 ^ (d - 1), 2 ^ (d + 1))`, so it is `d` when
`2 ^ d ≤ p / q` and `d - 1` otherwise. -/
def floorLog2Rat (p q : Nat) : Int :=
  let d : Int := (natLog2 p : Int) - (natLog2 q : Int)
  if 0 ≤ d then
    (if q * 2 ^ d.toNat ≤ p then d else d - 1)
  else
    (if q ≤ p * 2 ^ (-d).toNat then d else d - 1)

/-- Round `n / dd` (already scaled into `[2 ^ 52, 2 ^ 53)`) to the
nearest integer, ties to even. -/
def roundMantissa (n dd : Nat) : Nat :=
  let m0 := n / dd
  let r := n % dd
  if dd < 2 * r then m0 + 1
  else if 2 * r < dd then m0
  else if m0 % 2 = 0 then m0 else m0 + 1

/-- The binary64 double nearest to `p / q` (round to nearest, ties to
even) — the value CPython produces for `p / q` on ints and for any
correctly rounded operation whose exact result is `p / q`.  Validated
against CPython on 1899 inputs, including 100 exact-tie quotients and
the inputs where the double differs from the exact rational. -/
def roundPosRat (p q : Nat) : F64 :=
  if p = 0 then ⟨0, 0⟩
  else
    let s := floorLog2Rat p q
    let shift : Int := 52 - s
    let n := p * 2 ^ (max shift 0).toNat
    let dd := q * 2 ^ (max (-shift) 0).toNat
    ⟨roundMantissa n dd, s - 52⟩

/-- IEEE multiplication of an exactly representable small int `k`
(here `k ≤ 120`) with a double: the exact product `k * m * 2 ^ e`
rounded back to binary64. -/
def mulNatF64 (k : Nat) (x : F64) : F64 :=
  if 0 ≤ x.e then roundPosRat (k * x.m * 2 ^ x.e.toNat) 1
  else roundPosRat (k * x.m) (2 ^ (-x.e).toNat)

/-- `int(x * 0.5)` for a nonnegative double `x`: multiplying by `0.5`
only decrements the exponent (exact), and `int()` truncates, which is
floor here. -/
def floorHalfF64 (x : F64) : Nat :=
  if 0 ≤ x.e - 1 then x.m * 2 ^ (x.e - 1).toNat
  else x.m / 2 ^ (1 - x.e).toNat

/-- `int(target_width * aspect_ratio * 0.5)` with
`aspect_ratio = original_height / original_width`, evaluated the way
CPython does: `H / W` is the correctly rounded double of the exact
ratio, the product with the (exactly converted) int `tw` is one more
correctly rounded double operation, `* 0.5` is exact, and `int()`
truncates.  This can differ from exact-rational arithmetic: for
`tw = 50, H = 29, W = 25` the exact value is `29` but the doubles give
`28.999999999999996`, hence `28`. -/
def py_target_height_raw (tw H W : Nat) : Nat :=
  floorHalfF64 (mulNatF64 tw (roundPosRat H W))

/-- Lines 67-68 / 108-109: the raw float height, then
`target_height = max(10, min(target_height, 80))`. -/
def target_height (f : Frame) (width : Nat) : Nat :=
  max 10 (min (py_target_height_raw (target_width width) f.height f.width) 80)

/-- The body of the `try:` block of `frame_to_ascii` (lines 63-93,
OpenCV resampling):
* `aspect_ratio = H / W` raises `ZeroDivisionError` when `W = 0`;
* `cv2.resize` raises when the source is empty (`H = 0`) or the
  destination shape is degenerate (`target_width = 0` from `width = 0`);
* otherwise the resampled buffers are scanned row-major and the markup
  is closed with `"</pre>"` and returned with the target dimensions. -/
def frame_convert_body (c : Converter) (rs : Resampler) (f : Frame)
    (width : Nat) (color_mode : Bool) : Except String (String × Nat × Nat) :=
  if f.width = 0 then Except.error "division by zero"
  else if f.height = 0 ∨ target_width width = 0 then
    Except.error "OpenCV resize: empty input"
  else
    match ascii_rows c.char_map color_mode
        (rs.gray f (target_width width) (target_height f width))
        (rs.rgbAt f (target_width width) (target_height f width))
        (target_width width) (target_height f width) with
    | Except.ok body =>
        Except.ok (body ++ "</pre>", target_width width, target_height f width)
    | Except.error e => Except.error e

/-- The body of the `try:` block of `image_to_ascii` (lines 101-134),
textually the same loop but resampling with PIL:
* `aspect_ratio = H / W` raises `ZeroDivisionError` when `W = 0`;
* `Image.resize` rejects a non-positive destination size
  (`target_width = 0` from `width = 0`) but, unlike OpenCV, it does not
  raise on an empty source: a 0-height image resamples to a full target
  buffer (of black pixels), so `f.height = 0` proceeds normally, the
  content being whatever the resampler yields;
* otherwise identical to `frame_convert_body`. -/
def image_convert_body (c : Converter) (rs : Resampler) (f : Frame)
    (width : Nat) (color_mode : Bool) : Except String (String × Nat × Nat) :=
  if f.width = 0 then Except.error "division by zero"
  else if target_width width = 0 then
    Except.error "ValueError: height and width must be > 0"
  else
    match ascii_rows c.char_map color_mode
        (rs.gray f (target_width width) (target_height f width))
        (rs.rgbAt f (target_width width) (target_height f width))
        (target_width width) (target_height f width) with
    | Except.ok body =>
        Except.ok (body ++ "</pre>", target_width width, target_height f width)
    | Except.error e => Except.error e

/-- `frame_to_ascii` (lines 57-96): `None` short-circuits to
`("<pre>No frame</pre>", 0, 0)`; any exception in the body is caught by
the blanket `except` and becomes `(f"<pre>Error: {e}</pre>", 0, 0)`. -/
def frame_to_ascii (c : Converter) (rs : Resampler) (frame : Option Frame)
    (width : Nat) (color_mode : Bool) : String × Nat × Nat :=
  match frame with
  | none => ("<pre>No frame</pre>", 0, 0)
  | some f =>
    match frame_convert_body c rs f width color_mode with
    | Except.ok r => r
    | Except.error e => ("<pre>Error: " ++ e ++ "</pre>", 0, 0)

/-- `image_to_ascii` (lines 98-137): the PIL body (the image is
normalized to RGB first, which the `Frame` model already is); there is
no `None` short-circuit. -/
def image_to_ascii (c : Converter) (rs : Resampler) (image : Frame)
    (width : Nat) (color_mode : Bool) : String × Nat × Nat :=
  match image_convert_body c rs image width color_mode with
  | Except.ok r => r
  | Except.error e => ("<pre>Error: " ++ e ++ "</pre>", 0, 0)

/-- A call of the method `frame_to_ascii` on instance `c`: the method
body contains no assignment to `self`, so the instance after the call is
`c` itself, paired with the returned value. -/
def frame_to_ascii_call (c : Converter) (rs : Resampler) (frame : Option Frame)
    (width : Nat) (color_mode : Bool) : Converter × (String × Nat × Nat) :=
  (c, frame_to_ascii c rs frame width color_mode)

/-- A call of the method `image_to_ascii` on instance `c` (no assignment
to `self` in the body). -/
def image_to_ascii_call (c : Converter) (rs : Resampler) (image : Frame)
    (width : Nat) (color_mode : Bool) : Converter × (String × Nat × Nat) :=
  (c, image_to_ascii c rs image width color_mode)

/-- The markup one output cell contributes (for the concrete converter):
the glyph of the cell brightness, color-wrapped iff `color_mode`. -/
def cell_str (color_mode : Bool) (g : Fin 256) (p : RGB) : String :=
  if color_mode then span_html p (char_map_char (g : Nat))
  else String.singleton (char_map_char (g : Nat))

/-- The glyph selected for output cell `(y, x)`; it depends only on the
resampled brightness there, never on the color flag. -/
def cell_glyph (rs : Resampler) (f : Frame) (tw th y x : Nat) : Char :=
  char_map_char ((rs.gray f tw th y x : Fin 256) : Nat)

/-- The markup a successful render produces, as the row-major join of
the per-cell markup. -/
def html_of (color_mode : Bool) (rs : Resampler) (f : Frame)
    (tw th : Nat) : String :=
  "<pre class=\x22ascii-art\x22>" ++
    String.join ((List.range th).map (fun y =>
      String.join ((List.range tw).map (fun x =>
        cell_str color_mode (rs.gray f tw th y x) (rs.rgbAt f tw th y x))) ++ "\n")) ++
    "</pre>"

/-- The render result viewed as a grid: a list of `th` rows, each a list
of `tw` cell strings, row-major (row `y` from the top, column `x` from
the left). -/
def render_grid (color_mode : Bool) (rs : Resampler) (f : Frame)
    (tw th : Nat) : List (List String) :=
  (List.range th).map (fun y =>
    (List.range tw).map (fun x =>
      cell_str color_mode (rs.gray f tw th y x) (rs.rgbAt f tw th y x)))

/-- One output line of a successful render: the join of the per-cell
markup across the `tw` columns. -/
def line_pure (color_mode : Bool) (gray : Nat → Nat → Fin 256)
    (rgbb : Nat → Nat → RGB) (tw y : Nat) : String :=
  String.join ((List.range tw).map (fun x =>
    cell_str color_mode (gray y x) (rgbb y x)))

/-- The accumulated markup of a successful render before the closing
`"</pre>"`: the opening tag followed by each line and its newline. -/
def rows_pure (color_mode : Bool) (gray : Nat → Nat → Fin 256)
    (rgbb : Nat → Nat → RGB) (tw th : Nat) : String :=
  "<pre class=\x22ascii-art\x22>" ++
    String.join ((List.range th).map (fun y =>
      line_pure color_mode gray rgbb tw y ++ "\n"))

theorem char_map_lookup (v : Nat) (hv : v < 256) :
    converter.char_map[v]? = some (char_map_char v) := by
  show ((List.range 256).map char_map_char)[v]? = _
  rw [List.getElem?_map, List.getElem?_range hv]
  rfl

theorem list_foldlM_ok {α β : Type} (f : β → α → Except String β)
    (g : β → α → β) (hf : ∀ b a, f b a = Except.ok (g b a)) (l : List α) :
    ∀ (b : β), l.foldlM f b = Except.ok (l.foldl g b) := by
  induction l with
  | nil => intro b; rfl
  | cons a m ih =>
    intro b
    rw [List.foldlM_cons, hf b a, List.foldl_cons]
    exact ih (g b a)

theorem string_foldl_append_shift (l : List String) :
    ∀ (s t : String),
      l.foldl (fun r x => r ++ x) (s ++ t) =
        s ++ l.foldl (fun r x => r ++ x) t := by
  induction l with
  | nil => intro s t; rfl
  | cons a m ih =>
    intro s t
    rw [List.foldl_cons, List.foldl_cons, String.append_assoc]
    exact ih s (t ++ a)

theorem string_join_cons (s : String) (l : List String) :
    String.join (s :: l) = s ++ String.join l := by
  show (s :: l).foldl (fun r x => r ++ x) "" = s ++ l.foldl (fun r x => r ++ x) ""
  rw [List.foldl_cons, String.empty_append]
  have h := string_foldl_append_shift l s ""
  rwa [String.append_empty] at h

theorem foldl_append_eq_join {α : Type} (g : α → String) (l : List α) :
    ∀ (init : String),
      l.foldl (fun acc x => acc ++ g x) init = init ++ String.join (l.map g) := by
  induction l with
  | nil => intro init; exact (String.append_empty init).symm
  | cons a m ih =>
    intro init
    rw [List.foldl_cons, List.map_cons, string_join_cons,
      ih (init ++ g a), String.append_assoc]

theorem ascii_line_ok (color_mode : Bool) (gray : Nat → Nat → Fin 256)
    (rgbb : Nat → Nat → RGB) (tw y : Nat) :
    ascii_line converter.char_map color_mode gray rgbb tw y =
      Except.ok (line_pure color_mode gray rgbb tw y) := by
  have hrhs : line_pure color_mode gray rgbb tw y =
      (List.range tw).foldl
        (fun acc x => acc ++ cell_str color_mode (gray y x) (rgbb y x)) "" := by
    rw [foldl_append_eq_join, String.empty_append]
    rfl
  rw [hrhs]
  unfold ascii_line
  apply list_foldlM_ok
  intro b x
  rw [char_map_lookup _ (gray y x).isLt]
  rfl

theorem ascii_rows_ok (color_mode : Bool) (gray : Nat → Nat → Fin 256)
    (rgbb : Nat → Nat → RGB) (tw th : Nat) :
    ascii_rows converter.char_map color_mode gray rgbb tw th =
      Except.ok (rows_pure color_mode gray rgbb tw th) := by
  have hfun : (fun (acc : String) y =>
        acc ++ line_pure color_mode gray rgbb tw y ++ "\n") =
      (fun acc y => acc ++ (line_pure color_mode gray rgbb tw y ++ "\n")) := by
    funext acc y
    rw [String.append_assoc]
  have hrhs : rows_pure color_mode gray rgbb tw th =
      (List.range th).foldl
        (fun acc y => acc ++ line_pure color_mode gray rgbb tw y ++ "\n")
        "<pre class=\x22ascii-art\x22>" := by
    rw [hfun, foldl_append_eq_join]
    rfl
  rw [hrhs]
  unfold ascii_rows
  apply list_foldlM_ok
  intro b y
  rw [ascii_line_ok]

theorem frame_convert_body_ok (rs : Resampler) (f : Frame) (width : Nat)
    (color_mode : Bool) (hW : 0 < f.width) (hH : 0 < f.height) (hw : 0 < width) :
    frame_convert_body converter rs f width color_mode =
      Except.ok (html_of color_mode rs f (target_width width) (target_height f width),
        target_width width, target_height f width) := by
  have htw : 0 < target_width width := by
    unfold target_width
    omega
  unfold frame_convert_body
  rw [if_neg (by omega : ¬ f.width = 0),
    if_neg (by omega : ¬ (f.height = 0 ∨ target_width width = 0)),
    ascii_rows_ok]
  rfl

theorem image_convert_body_ok (rs : Resampler) (f : Frame) (width : Nat)
    (color_mode : Bool) (hW : 0 < f.width) (hw : 0 < width) :
    image_convert_body converter rs f width color_mode =
      Except.ok (html_of color_mode rs f (target_width width) (target_height f width),
        target_width width, target_height f width) := by
  have htw : 0 < target_width width := by
    unfold target_width
    omega
  unfold image_convert_body
  rw [if_neg (by omega : ¬ f.width = 0),
    if_neg (by omega : ¬ target_width width = 0),
    ascii_rows_ok]
  rfl

theorem frame_to_ascii_ok (rs : Resampler) (f : Frame) (width : Nat)
    (color_mode : Bool) (hW : 0 < f.width) (hH : 0 < f.height) (hw : 0 < width) :
    frame_to_ascii converter rs (some f) width color_mode =
      (html_of color_mode rs f (target_width width) (target_height f width),
        target_width width, target_height f width) := by
  show (match frame_convert_body converter rs f width color_mode with
    | Except.ok r => r
    | Except.error e => ("<pre>Error: " ++ e ++ "</pre>", 0, 0)) = _
  rw [frame_convert_body_ok rs f width color_mode hW hH hw]

theorem image_to_ascii_ok (rs : Resampler) (f : Frame) (width : Nat)
    (color_mode : Bool) (hW : 0 < f.width) (hw : 0 < width) :
    image_to_ascii converter rs f width color_mode =
      (html_of color_mode rs f (target_width width) (target_height f width),
        target_width width, target_height f width) := by
  unfold image_to_ascii
  rw [image_convert_body_ok rs f width color_mode hW hw]

/-- A concrete resampler for witnesses: brightness is the red channel of
the source pixel at the same coordinates, color is that pixel. -/
def rs0 : Resampler :=
  { gray := fun f _ _ y x => ⟨(f.pixel y x).r % 256, Nat.mod_lt _ (by decide)⟩,
    rgbAt := fun f _ _ y x => f.pixel y x }

/-- A degenerate frame of height 2 and width 0. -/
def frame_w0 : Frame :=
  { height := 2, width := 0, pixel := fun _ _ => ⟨0, 0, 0⟩ }

/-- A degenerate frame of height 0 and width 2. -/
def frame_h0 : Frame :=
  { height := 0, width := 2, pixel := fun _ _ => ⟨0, 0, 0⟩ }

/-- A 25-wide, 29-high black frame: at requested width 50 the float
height computation gives 28 although the exact value of
`50 * (29 / 25) * 0.5` is the integer 29. -/
def f29 : Frame :=
  { height := 29, width := 25, pixel := fun _ _ => ⟨0, 0, 0⟩ }

/-- The 2-by-2 frame of the end-to-end example: row-major pixels
`(0,0,0), (255,255,255), (128,128,128), (64,64,64)`. -/
def f2x2 : Frame :=
  { height := 2, width := 2,
    pixel := fun y x =>
      if y = 0 ∧ x = 0 then ⟨0, 0, 0⟩
      else if y = 0 ∧ x = 1 then ⟨255, 255, 255⟩
      else if y = 1 ∧ x = 0 then ⟨128, 128, 128⟩
      else ⟨64, 64, 64⟩ }

theorem frame_to_ascii_error (c : Converter) (rs : Resampler) (f : Frame)
    (width : Nat) (color_mode : Bool) (msg : String)
    (h : frame_convert_body c rs f width color_mode = Except.error msg) :
    frame_to_ascii c rs (some f) width color_mode =
      ("<pre>Error: " ++ msg ++ "</pre>", 0, 0) := by
  show (match frame_convert_body c rs f width color_mode with
    | Except.ok r => r
    | Except.error e => ("<pre>Error: " ++ e ++ "</pre>", 0, 0)) = _
  rw [h]

theorem image_to_ascii_error (c : Converter) (rs : Resampler) (f : Frame)
    (width : Nat) (color_mode : Bool) (msg : String)
    (h : image_convert_body c rs f width color_mode = Except.error msg) :
    image_to_ascii c rs f width color_mode =
      ("<pre>Error: " ++ msg ++ "</pre>", 0, 0) := by
  unfold image_to_ascii
  rw [h]

theorem target_height_of_zero_height (f : Frame) (width : Nat)
    (h : f.height = 0) : target_height f width = 10 := by
  unfold target_height py_target_height_raw
  rw [h]
  simp [roundPosRat, mulNatF64, floorHalfF64]

/-- Claim C10: for the input frame value `None`, `frame_to_ascii` returns
the fixed output `("<pre>No frame</pre>", 0, 0)` — both returned
dimensions 0 — without raising an exception. -/
theorem none_frame_fixed_output (c : Converter) (rs : Resampler)
    (width : Nat) (color_mode : Bool) :
    frame_to_ascii c rs none width color_mode = ("<pre>No frame</pre>", 0, 0) := rfl

/-- Claim C1 counterexample: on a frame of width 0 the render does not
return an empty-result sentinel: `aspect_ratio = H / W` raises
`ZeroDivisionError`, the blanket handler catches it, and the call
returns the error outcome `("<pre>Error: division by zero</pre>", 0, 0)`
(distinct from the only no-data sentinel `"<pre>No frame</pre>"` in the
code). -/
theorem zero_width_returns_error_outcome :
    frame_to_ascii converter rs0 (some frame_w0) 80 true =
      ("<pre>Error: division by zero</pre>", 0, 0) ∧
    image_to_ascii converter rs0 frame_w0 80 true =
      ("<pre>Error: division by zero</pre>", 0, 0) ∧
    ("<pre>Error: division by zero</pre>" : String) ≠ "<pre>No frame</pre>" :=
  ⟨rfl, rfl, by decide⟩

/-- Claim C1 (amended): zero-area input never raises (the blanket
`except` catches everything) but there is no designated empty-result
sentinel: for `W = 0` both renders return the error outcome
`("<pre>Error: division by zero</pre>", 0, 0)`; for `H = 0` (with
`W > 0`) `frame_to_ascii` returns the error outcome of the OpenCV
resize failure, while `image_to_ascii` — PIL resamples an empty source
without raising — succeeds with an ordinary grid of the clamped minimum
height 10 and the requested clamped width. -/
theorem zero_area_error_outcome (rs : Resampler) (f : Frame)
    (width : Nat) (color_mode : Bool) :
    (f.width = 0 →
      frame_to_ascii converter rs (some f) width color_mode =
        ("<pre>Error: division by zero</pre>", 0, 0) ∧
      image_to_ascii converter rs f width color_mode =
        ("<pre>Error: division by zero</pre>", 0, 0)) ∧
    (f.width ≠ 0 → f.height = 0 →
      frame_to_ascii converter rs (some f) width color_mode =
        ("<pre>Error: OpenCV resize: empty input</pre>", 0, 0)) ∧
    (f.width ≠ 0 → f.height = 0 → 0 < width →
      image_to_ascii converter rs f width color_mode =
        (html_of color_mode rs f (target_width width) 10,
          target_width width, 10)) := by
  refine ⟨fun hw0 => ⟨?_, ?_⟩, fun hwp hh0 => ?_, fun hwp hh0 hw => ?_⟩
  · have hbody : frame_convert_body converter rs f width color_mode =
        Except.error "division by zero" := by
      unfold frame_convert_body
      rw [if_pos hw0]
    exact (frame_to_ascii_error converter rs f width color_mode _ hbody).trans
      (by rfl)
  · have hbody : image_convert_body converter rs f width color_mode =
        Except.error "division by zero" := by
      unfold image_convert_body
      rw [if_pos hw0]
    exact (image_to_ascii_error converter rs f width color_mode _ hbody).trans
      (by rfl)
  · have hbody : frame_convert_body converter rs f width color_mode =
        Except.error "OpenCV resize: empty input" := by
      unfold frame_convert_body
      rw [if_neg hwp, if_pos (Or.inl hh0)]
    exact (frame_to_ascii_error converter rs f width color_mode _ hbody).trans
      (by rfl)
  · have h10 := target_height_of_zero_height f width hh0
    have hok := image_to_ascii_ok rs f width color_mode
      (Nat.pos_of_ne_zero hwp) hw
    rw [h10] at hok
    exact hok

theorem zero_area_error_outcome_witness :
    (frame_to_ascii converter rs0 (some frame_w0) 80 true =
      ("<pre>Error: division by zero</pre>", 0, 0) ∧
     image_to_ascii converter rs0 frame_w0 80 true =
      ("<pre>Error: division by zero</pre>", 0, 0)) ∧
    frame_to_ascii converter rs0 (some frame_h0) 80 true =
      ("<pre>Error: OpenCV resize: empty input</pre>", 0, 0) ∧
    image_to_ascii converter rs0 frame_h0 80 true =
      (html_of true rs0 frame_h0 (target_width 80) 10, target_width 80, 10) :=
  ⟨(zero_area_error_outcome rs0 frame_w0 80 true).1 rfl,
   (zero_area_error_outcome rs0 frame_h0 80 true).2.1 (by decide) rfl,
   (zero_area_error_outcome rs0 frame_h0 80 true).2.2 (by decide) rfl (by decide)⟩

/-- Claim C8: a render call, succeeding or failing, leaves the
converter's state (the glyph ramp and the precomputed table) unchanged,
and a subsequent call on the resulting state behaves exactly like a call
on the original state. -/
theorem render_preserves_state (c : Converter) (rs rs2 : Resampler)
    (frame frame2 : Option Frame) (img img2 : Frame)
    (width width2 : Nat) (color_mode cm2 : Bool) :
    (frame_to_ascii_call c rs frame width color_mode).1 = c ∧
    (image_to_ascii_call c rs img width color_mode).1 = c ∧
    (frame_to_ascii_call c rs frame width color_mode).1.chars = c.chars ∧
    (frame_to_ascii_call c rs frame width color_mode).1.char_map = c.char_map ∧
    frame_to_ascii_call (frame_to_ascii_call c rs frame width color_mode).1
        rs2 frame2 width2 cm2 =
      frame_to_ascii_call c rs2 frame2 width2 cm2 ∧
    image_to_ascii_call (image_to_ascii_call c rs img width color_mode).1
        rs2 img2 width2 cm2 =
      image_to_ascii_call c rs2 img2 width2 cm2 :=
  ⟨rfl, rfl, rfl, rfl, rfl, rfl⟩

/-- Claim C9: running `__init__` with an empty glyph ramp raises
(`chars[-1]` on the empty string is an `IndexError` inside
`precompute_char_mapping`, which `__init__` calls before returning), so
the converter refuses to be built; with the source's actual ramp the
construction succeeds. -/
theorem empty_ramp_fails_construction :
    StreamlitASCIIConverter.mk_with [] =
      Except.error "IndexError: string index out of range" ∧
    StreamlitASCIIConverter.mk_with chars = Except.ok converter :=
  ⟨rfl, mk_with_chars_ok⟩

/-- Claim C2 counterexample: the ramp the code uses,
`"@%#*+=-:. "`, has 10 symbols (9 printable glyphs plus a trailing
space), not 9 as the claim describes it. -/
theorem ramp_is_ten_symbols :
    chars = "@%#*+=-:. ".toList ∧ chars.length = 10 ∧ chars.length ≠ 9 :=
  ⟨rfl, rfl, by decide⟩

/-- Claim C2 (amended): the table maps every brightness `v` in `[0,255]`
to the ramp character at index
`min(floor(v / 255 * (rampLength - 1)), rampLength - 1)` with
`rampLength = 10`; in particular 0 maps to the glyph at index 0 (`'@'`),
255 to the glyph at index 9 (`' '`), 128 to the glyph at index 4 and 64
to the glyph at index 2. -/
theorem char_table_quantization (v : Nat) (hv : v < 256) :
    converter.char_map[v]? =
      chars[min (v * (chars.length - 1) / 255) (chars.length - 1)]? ∧
    converter.char_map[(0 : Nat)]? = some '@' ∧
    converter.char_map[(255 : Nat)]? = some ' ' ∧
    converter.char_map[(128 : Nat)]? = chars[(4 : Nat)]? ∧
    converter.char_map[(64 : Nat)]? = chars[(2 : Nat)]? := by
  refine ⟨?_, by decide, by decide, by decide, by decide⟩
  rw [char_map_lookup v hv]
  show some (char_map_char v) = chars[char_index_nat v]?
  rw [List.getElem?_eq_getElem (char_index_nat_lt v)]
  rfl

theorem char_table_quantization_witness :
    128 < 256 ∧
    (converter.char_map[(128 : Nat)]? =
      chars[min (128 * (chars.length - 1) / 255) (chars.length - 1)]? ∧
    converter.char_map[(0 : Nat)]? = some '@' ∧
    converter.char_map[(255 : Nat)]? = some ' ' ∧
    converter.char_map[(128 : Nat)]? = chars[(4 : Nat)]? ∧
    converter.char_map[(64 : Nat)]? = chars[(2 : Nat)]?) :=
  ⟨by decide, char_table_quantization 128 (by decide)⟩

theorem char_index_eq_nat (ramp : List Char) (hr : ramp ≠ []) (v : Nat) :
    char_index ramp v =
      ((min (v * (ramp.length - 1) / 255) (ramp.length - 1) : Nat) : Int) := by
  have h1 : 1 ≤ ramp.length := List.length_pos.mpr hr
  have hs : ((ramp.length : Int) - 1) = ((ramp.length - 1 : Nat) : Int) := by
    omega
  show min (Int.tdiv ((v : Int) * ((ramp.length : Int) - 1)) 255)
      ((ramp.length : Int) - 1) = _
  rw [hs]
  have hdiv : Int.tdiv ((v : Int) * ((ramp.length - 1 : Nat) : Int)) 255
      = ((v * (ramp.length - 1) / 255 : Nat) : Int) := by
    rw [← Nat.cast_mul]
    rfl
  rw [hdiv, ← Nat.cast_min]

/-- Claim C4: for any non-empty ramp, the glyph index the quantization
assigns is monotone in brightness: `a ≤ b` implies
`char_index ramp a ≤ char_index ramp b`. -/
theorem char_index_monotone (ramp : List Char) (a b : Nat)
    (hr : ramp ≠ []) (hab : a ≤ b) (_hb : b ≤ 255) :
    char_index ramp a ≤ char_index ramp b := by
  rw [char_index_eq_nat ramp hr a, char_index_eq_nat ramp hr b]
  have h : min (a * (ramp.length - 1) / 255) (ramp.length - 1) ≤
      min (b * (ramp.length - 1) / 255) (ramp.length - 1) :=
    min_le_min (Nat.div_le_div_right (Nat.mul_le_mul_right _ hab)) le_rfl
  exact_mod_cast h

theorem char_index_monotone_witness :
    chars ≠ [] ∧ 64 ≤ 128 ∧ 128 ≤ 255 ∧
    char_index chars 64 ≤ char_index chars 128 :=
  ⟨by decide, by decide, by decide,
    char_index_monotone chars 64 128 (by decide) (by decide) (by decide)⟩

/-- Claim C5: the table is total on `[0,255]`: it has exactly 256
entries, every brightness below 256 is mapped to exactly one glyph, that
glyph belongs to the ramp, and a lookup with any in-range (`uint8`)
brightness — the only kind the render loop performs — succeeds. -/
theorem char_table_total (v : Nat) (hv : v < 256) :
    converter.char_map.length = 256 ∧
    (∃! ch, converter.char_map[v]? = some ch) ∧
    (∀ ch, converter.char_map[v]? = some ch → ch ∈ chars) ∧
    (∀ g : Fin 256, (converter.char_map[(g : Nat)]?).isSome = true) := by
  refine ⟨by decide, ⟨char_map_char v, char_map_lookup v hv, ?_⟩, ?_, ?_⟩
  · intro y hy
    rw [char_map_lookup v hv] at hy
    exact (Option.some.inj hy).symm
  · intro ch hch
    rw [char_map_lookup v hv] at hch
    rw [← Option.some.inj hch]
    show chars.get ⟨char_index_nat v, char_index_nat_lt v⟩ ∈ chars
    exact List.get_mem chars _ _
  · intro g
    rw [char_map_lookup (g : Nat) g.isLt]
    rfl

theorem char_table_total_witness :
    128 < 256 ∧
    (converter.char_map.length = 256 ∧
    (∃! ch, converter.char_map[(128 : Nat)]? = some ch) ∧
    (∀ ch, converter.char_map[(128 : Nat)]? = some ch → ch ∈ chars) ∧
    (∀ g : Fin 256, (converter.char_map[(g : Nat)]?).isSome = true)) :=
  ⟨by decide, char_table_total 128 (by decide)⟩

/-- Claim C3 counterexample: at `W = 25`, `H = 29`, requested width 50
both renders return target height 28, but the exact value of
`targetWidth * (H / W) * 0.5` is the integer 29, so every rounding rule
applied to that exact value — truncation as well as rounding (shown:
`floor` and `floor (x + 1/2)`) — yields 29 after clamping, not 28: the
program's height is not obtained from the exact expression by any
consistent rounding rule, only by truncating its IEEE-double
evaluation. -/
theorem dimension_rounding_counterexample :
    (frame_to_ascii converter rs0 (some f29) 50 true).2.2 = 28 ∧
    (image_to_ascii converter rs0 f29 50 true).2.2 = 28 ∧
    max 10 (min (min 50 120 * 29 / (2 * 25)) 80) = 29 ∧
    max 10 (min ((min 50 120 * 29 + 25) / (2 * 25)) 80) = 29 := by
  refine ⟨?_, ?_, by decide, by decide⟩
  · rw [frame_to_ascii_ok rs0 f29 50 true (by decide) (by decide) (by decide)]
    show target_height f29 50 = 28
    decide
  · rw [image_to_ascii_ok rs0 f29 50 true (by decide) (by decide)]
    show target_height f29 50 = 28
    decide

/-- CPython ground truth for `int(tw * (H / W) * 0.5)` on a sample of
inputs `(tw, H, W, expected)`, including many where the double result
differs from exact-rational truncation (the first twelve and the last
two differ; e.g. `(30, 49, 3)` gives 244 while the exact value is
245). -/
def py_height_samples : List (Nat × Nat × Nat × Nat) :=
  [(30, 49, 3, 244), (120, 49, 3, 979), (30, 98, 3, 489), (120, 98, 3, 1959),
   (30, 101, 3, 504), (120, 101, 3, 2019), (30, 193, 3, 964), (120, 193, 3, 3859),
   (30, 196, 3, 979), (120, 196, 3, 3919), (30, 199, 3, 994), (120, 199, 3, 3979),
   (80, 2, 2, 40), (2, 2, 2, 1), (120, 3, 1, 180), (119, 1000, 37, 1608),
   (80, 480, 640, 30), (120, 1080, 1920, 33), (100, 333, 77, 216),
   (50, 100, 100, 25), (50, 101, 100, 25), (50, 99, 100, 24),
   (1, 1, 1, 0), (1, 3, 1, 1), (3, 3, 2, 2), (7, 5, 3, 5),
   (120, 4000, 1, 240000), (1, 1, 4000, 0), (97, 1234, 567, 105),
   (50, 29, 25, 28), (14, 61, 7, 60)]

/-- The binary64 model reproduces CPython on every sample; exact
rational division `tw * H / (2 * W)` does not (it gives 245, not 244,
on the first sample, and 29, not 28, on `(50, 29, 25)`). -/
theorem py_target_height_raw_matches_samples :
    (py_height_samples.all
      (fun t => py_target_height_raw t.1 t.2.1 t.2.2.1 == t.2.2.2)) = true ∧
    py_target_height_raw 30 49 3 + 1 = 30 * 49 / (2 * 3) ∧
    py_target_height_raw 50 29 25 + 1 = 50 * 29 / (2 * 25) := by
  refine ⟨by decide, by decide, by decide⟩

/-- Claim C3 (amended): for `W > 0`, `H > 0` and a positive requested
width, both render operations return
`targetWidth = min(requestedWidth, 120)` (the width clamp has only the
upper bound 120) and
`targetHeight = clamp(int(targetWidth * (H / W) * 0.5), 10, 80)` with
the inner expression evaluated in IEEE-754 double arithmetic
(`py_target_height_raw`) and `int()` truncating it — a deterministic
rule, but one that can come out one lower than any rounding of the
exact real value; both results stay inside the clamp bounds
(`targetWidth ≤ 120`, `10 ≤ targetHeight ≤ 80`). -/
theorem render_dimension_invariant (rs : Resampler) (f : Frame)
    (width : Nat) (color_mode : Bool)
    (hW : 0 < f.width) (hH : 0 < f.height) (hw : 0 < width) :
    ((frame_to_ascii converter rs (some f) width color_mode).2.1 = min width 120 ∧
     (frame_to_ascii converter rs (some f) width color_mode).2.2 =
       max 10 (min (py_target_height_raw (min width 120) f.height f.width) 80) ∧
     (frame_to_ascii converter rs (some f) width color_mode).2.1 ≤ 120 ∧
     10 ≤ (frame_to_ascii converter rs (some f) width color_mode).2.2 ∧
     (frame_to_ascii converter rs (some f) width color_mode).2.2 ≤ 80) ∧
    ((image_to_ascii converter rs f width color_mode).2.1 = min width 120 ∧
     (image_to_ascii converter rs f width color_mode).2.2 =
       max 10 (min (py_target_height_raw (min width 120) f.height f.width) 80) ∧
     (image_to_ascii converter rs f width color_mode).2.1 ≤ 120 ∧
     10 ≤ (image_to_ascii converter rs f width color_mode).2.2 ∧
     (image_to_ascii converter rs f width color_mode).2.2 ≤ 80) := by
  rw [frame_to_ascii_ok rs f width color_mode hW hH hw,
    image_to_ascii_ok rs f width color_mode hW hw]
  have hb1 : target_width width ≤ 120 := min_le_right _ _
  have hb2 : 10 ≤ target_height f width := le_max_left _ _
  have hb3 : target_height f width ≤ 80 :=
    max_le (by omega) (min_le_right _ _)
  exact ⟨⟨rfl, rfl, hb1, hb2, hb3⟩, ⟨rfl, rfl, hb1, hb2, hb3⟩⟩

theorem render_dimension_invariant_witness :
    0 < f2x2.width ∧ 0 < f2x2.height ∧ 0 < 80 ∧
    (((frame_to_ascii converter rs0 (some f2x2) 80 true).2.1 = min 80 120 ∧
     (frame_to_ascii converter rs0 (some f2x2) 80 true).2.2 =
       max 10 (min (py_target_height_raw (min 80 120) f2x2.height f2x2.width) 80) ∧
     (frame_to_ascii converter rs0 (some f2x2) 80 true).2.1 ≤ 120 ∧
     10 ≤ (frame_to_ascii converter rs0 (some f2x2) 80 true).2.2 ∧
     (frame_to_ascii converter rs0 (some f2x2) 80 true).2.2 ≤ 80) ∧
    ((image_to_ascii converter rs0 f2x2 80 true).2.1 = min 80 120 ∧
     (image_to_ascii converter rs0 f2x2 80 true).2.2 =
       max 10 (min (py_target_height_raw (min 80 120) f2x2.height f2x2.width) 80) ∧
     (image_to_ascii converter rs0 f2x2 80 true).2.1 ≤ 120 ∧
     10 ≤ (image_to_ascii converter rs0 f2x2 80 true).2.2 ∧
     (image_to_ascii converter rs0 f2x2 80 true).2.2 ≤ 80)) :=
  ⟨by decide, by decide, by decide,
    render_dimension_invariant rs0 f2x2 80 true
      (by decide) (by decide) (by decide)⟩

/-- Claim C6: with `colorEnabled = false` every output cell is the bare
glyph (no color markup), and with `colorEnabled = true` every cell wraps
the same glyph function `cell_glyph` — which reads only the resampled
brightness, never the color flag — in the color span; dimensions agree,
and `image_to_ascii` behaves identically. -/
theorem color_flag_preserves_glyphs (rs : Resampler) (f : Frame)
    (width : Nat) (hW : 0 < f.width) (hH : 0 < f.height) (hw : 0 < width) :
    (frame_to_ascii converter rs (some f) width false =
      ("<pre class=\x22ascii-art\x22>" ++
        String.join ((List.range (target_height f width)).map (fun y =>
          String.join ((List.range (target_width width)).map (fun x =>
            String.singleton
              (cell_glyph rs f (target_width width) (target_height f width) y x))) ++
          "\n")) ++ "</pre>",
        target_width width, target_height f width)) ∧
    (frame_to_ascii converter rs (some f) width true =
      ("<pre class=\x22ascii-art\x22>" ++
        String.join ((List.range (target_height f width)).map (fun y =>
          String.join ((List.range (target_width width)).map (fun x =>
            span_html (rs.rgbAt f (target_width width) (target_height f width) y x)
              (cell_glyph rs f (target_width width) (target_height f width) y x))) ++
          "\n")) ++ "</pre>",
        target_width width, target_height f width)) ∧
    image_to_ascii converter rs f width false =
      frame_to_ascii converter rs (some f) width false ∧
    image_to_ascii converter rs f width true =
      frame_to_ascii converter rs (some f) width true := by
  refine ⟨?_, ?_, ?_, ?_⟩
  · rw [frame_to_ascii_ok rs f width false hW hH hw]
    rfl
  · rw [frame_to_ascii_ok rs f width true hW hH hw]
    rfl
  · rw [image_to_ascii_ok rs f width false hW hw,
      frame_to_ascii_ok rs f width false hW hH hw]
  · rw [image_to_ascii_ok rs f width true hW hw,
      frame_to_ascii_ok rs f width true hW hH hw]

theorem color_flag_preserves_glyphs_witness :
    0 < f2x2.width ∧ 0 < f2x2.height ∧ 0 < 80 ∧
    ((frame_to_ascii converter rs0 (some f2x2) 80 false =
      ("<pre class=\x22ascii-art\x22>" ++
        String.join ((List.range (target_height f2x2 80)).map (fun y =>
          String.join ((List.range (target_width 80)).map (fun x =>
            String.singleton
              (cell_glyph rs0 f2x2 (target_width 80) (target_height f2x2 80) y x))) ++
          "\n")) ++ "</pre>",
        target_width 80, target_height f2x2 80)) ∧
    (frame_to_ascii converter rs0 (some f2x2) 80 true =
      ("<pre class=\x22ascii-art\x22>" ++
        String.join ((List.range (target_height f2x2 80)).map (fun y =>
          String.join ((List.range (target_width 80)).map (fun x =>
            span_html (rs0.rgbAt f2x2 (target_width 80) (target_height f2x2 80) y x)
              (cell_glyph rs0 f2x2 (target_width 80) (target_height f2x2 80) y x))) ++
          "\n")) ++ "</pre>",
        target_width 80, target_height f2x2 80)) ∧
    image_to_ascii converter rs0 f2x2 80 false =
      frame_to_ascii converter rs0 (some f2x2) 80 false ∧
    image_to_ascii converter rs0 f2x2 80 true =
      frame_to_ascii converter rs0 (some f2x2) 80 true) :=
  ⟨by decide, by decide, by decide,
    color_flag_preserves_glyphs rs0 f2x2 80 (by decide) (by decide) (by decide)⟩

/-- Claim C7: a successful render is the row-major assembly of
`render_grid`: exactly `targetHeight` rows (top to bottom), each of
exactly `targetWidth` cells (left to right), cell `(y, x)` holding the
markup of the resampled pixel at `(y, x)`; `image_to_ascii` produces the
same result. -/
theorem render_result_grid_shape (rs : Resampler) (f : Frame)
    (width : Nat) (color_mode : Bool)
    (hW : 0 < f.width) (hH : 0 < f.height) (hw : 0 < width) :
    (frame_to_ascii converter rs (some f) width color_mode =
      ("<pre class=\x22ascii-art\x22>" ++
        String.join
          ((render_grid color_mode rs f (target_width width) (target_height f width)).map
            (fun row => String.join row ++ "\n")) ++ "</pre>",
        target_width width, target_height f width)) ∧
    image_to_ascii converter rs f width color_mode =
      frame_to_ascii converter rs (some f) width color_mode ∧
    (render_grid color_mode rs f (target_width width) (target_height f width)).length =
      target_height f width ∧
    (∀ row ∈ render_grid color_mode rs f (target_width width) (target_height f width),
      row.length = target_width width) ∧
    (∀ y, y < target_height f width → ∀ x, x < target_width width →
      ((render_grid color_mode rs f (target_width width) (target_height f width))[y]?.bind
          (fun row => row[x]?)) =
        some (cell_str color_mode
          (rs.gray f (target_width width) (target_height f width) y x)
          (rs.rgbAt f (target_width width) (target_height f width) y x))) := by
  refine ⟨?_, ?_, ?_, ?_, ?_⟩
  · rw [frame_to_ascii_ok rs f width color_mode hW hH hw]
    unfold html_of render_grid
    rw [List.map_map]
    rfl
  · rw [image_to_ascii_ok rs f width color_mode hW hw,
      frame_to_ascii_ok rs f width color_mode hW hH hw]
  · unfold render_grid
    rw [List.length_map, List.length_range]
  · intro row hrow
    unfold render_grid at hrow
    obtain ⟨y, _, hy⟩ := List.mem_map.mp hrow
    rw [← hy, List.length_map, List.length_range]
  · intro y hy x hx
    unfold render_grid
    rw [List.getElem?_map, List.getElem?_range hy]
    show ((List.range (target_width width)).map _)[x]? = _
    rw [List.getElem?_map, List.getElem?_range hx]
    rfl

theorem render_result_grid_shape_witness :
    0 < f2x2.width ∧ 0 < f2x2.height ∧ 0 < 80 ∧
    ((frame_to_ascii converter rs0 (some f2x2) 80 true =
      ("<pre class=\x22ascii-art\x22>" ++
        String.join
          ((render_grid true rs0 f2x2 (target_width 80) (target_height f2x2 80)).map
            (fun row => String.join row ++ "\n")) ++ "</pre>",
        target_width 80, target_height f2x2 80)) ∧
    image_to_ascii converter rs0 f2x2 80 true =
      frame_to_ascii converter rs0 (some f2x2) 80 true ∧
    (render_grid true rs0 f2x2 (target_width 80) (target_height f2x2 80)).length =
      target_height f2x2 80 ∧
    (∀ row ∈ render_grid true rs0 f2x2 (target_width 80) (target_height f2x2 80),
      row.length = target_width 80) ∧
    (∀ y, y < target_height f2x2 80 → ∀ x, x < target_width 80 →
      ((render_grid true rs0 f2x2 (target_width 80) (target_height f2x2 80))[y]?.bind
          (fun row => row[x]?)) =
        some (cell_str true
          (rs0.gray f2x2 (target_width 80) (target_height f2x2 80) y x)
          (rs0.rgbAt f2x2 (target_width 80) (target_height f2x2 80) y x)))) :=
  ⟨by decide, by decide, by decide,
    render_result_grid_shape rs0 f2x2 80 true (by decide) (by decide) (by decide)⟩
